import Mathlib

/-!
Verification of the DAB+ superframe parser (gst-plugins-dab).

This file gives a shallow embedding of the core of
`src/gst/src/gstdabplusparse.c` — the firecode (CRC-16) validator, the
superframe synchronizer, the superframe-header decoder, the audio-parameter
resolution, the ADTS (legacy) header synthesis and the per-chunk state
machine — and proves properties about it.

Modelling conventions:
* An input byte window is a function `Bytes := Nat → Nat`; every read from it
  goes through `rd`, which truncates to a byte (the C code reads `guint8`).
* C `guint` (32-bit unsigned) subtraction is modelled by `sub32`, which
  computes the difference modulo 2^32.
* GStreamer buffers are modelled as `(start, size)` descriptors; the bytes of
  an emitted access unit are determined by the descriptor and the window.
* The external GStreamer collaborators (downstream caps negotiation performed
  by `gst_dabplusparse_set_src_caps`, and the `profile` string read back from
  the source-pad caps by `gst_dabplusparse_get_audio_profile_object_type`)
  are passed to the state machine as parameters `negotiated` and `profile`,
  per the collaborator contract of the specification.
-/

namespace DabPlus

/-- Constant `RS_CODE_SIZE` from the source: Reed-Solomon parity bytes per
120-byte sub-block. -/
def RS_CODE_SIZE : Nat := 10

/-- Constant `SUPERFRAME_MIN_SIZE` from the source. -/
def SUPERFRAME_MIN_SIZE : Nat := 120

/-- Constant `N_MAX` from the source. -/
def N_MAX : Nat := 216

/-- Constant `SUPERFRAME_MAX_SIZE = SUPERFRAME_MIN_SIZE * N_MAX`. -/
def SUPERFRAME_MAX_SIZE : Nat := SUPERFRAME_MIN_SIZE * N_MAX

/-- Constant `FIRECODE_LENGTH` from the source. -/
def FIRECODE_LENGTH : Nat := 11

/-- Constant `ADTS_HEADER_LENGTH` from the source. -/
def ADTS_HEADER_LENGTH : Nat := 7

/-- The 256-entry firecode CRC table `gst_dabplusparse_firecode_crc_table`
for the polynomial x^16+x^14+x^13+x^12+x^11+x^5+x^3+x^2+x+1, copied verbatim
from the source. -/
def firecode_crc_table : List Nat := [
  0x0000, 0x782f, 0xf05e, 0x8871, 0x9893, 0xe0bc, 0x68cd, 0x10e2,
  0x4909, 0x3126, 0xb957, 0xc178, 0xd19a, 0xa9b5, 0x21c4, 0x59eb,
  0x9212, 0xea3d, 0x624c, 0x1a63, 0x0a81, 0x72ae, 0xfadf, 0x82f0,
  0xdb1b, 0xa334, 0x2b45, 0x536a, 0x4388, 0x3ba7, 0xb3d6, 0xcbf9,
  0x5c0b, 0x2424, 0xac55, 0xd47a, 0xc498, 0xbcb7, 0x34c6, 0x4ce9,
  0x1502, 0x6d2d, 0xe55c, 0x9d73, 0x8d91, 0xf5be, 0x7dcf, 0x05e0,
  0xce19, 0xb636, 0x3e47, 0x4668, 0x568a, 0x2ea5, 0xa6d4, 0xdefb,
  0x8710, 0xff3f, 0x774e, 0x0f61, 0x1f83, 0x67ac, 0xefdd, 0x97f2,
  0xb816, 0xc039, 0x4848, 0x3067, 0x2085, 0x58aa, 0xd0db, 0xa8f4,
  0xf11f, 0x8930, 0x0141, 0x796e, 0x698c, 0x11a3, 0x99d2, 0xe1fd,
  0x2a04, 0x522b, 0xda5a, 0xa275, 0xb297, 0xcab8, 0x42c9, 0x3ae6,
  0x630d, 0x1b22, 0x9353, 0xeb7c, 0xfb9e, 0x83b1, 0x0bc0, 0x73ef,
  0xe41d, 0x9c32, 0x1443, 0x6c6c, 0x7c8e, 0x04a1, 0x8cd0, 0xf4ff,
  0xad14, 0xd53b, 0x5d4a, 0x2565, 0x3587, 0x4da8, 0xc5d9, 0xbdf6,
  0x760f, 0x0e20, 0x8651, 0xfe7e, 0xee9c, 0x96b3, 0x1ec2, 0x66ed,
  0x3f06, 0x4729, 0xcf58, 0xb777, 0xa795, 0xdfba, 0x57cb, 0x2fe4,
  0x0803, 0x702c, 0xf85d, 0x8072, 0x9090, 0xe8bf, 0x60ce, 0x18e1,
  0x410a, 0x3925, 0xb154, 0xc97b, 0xd999, 0xa1b6, 0x29c7, 0x51e8,
  0x9a11, 0xe23e, 0x6a4f, 0x1260, 0x0282, 0x7aad, 0xf2dc, 0x8af3,
  0xd318, 0xab37, 0x2346, 0x5b69, 0x4b8b, 0x33a4, 0xbbd5, 0xc3fa,
  0x5408, 0x2c27, 0xa456, 0xdc79, 0xcc9b, 0xb4b4, 0x3cc5, 0x44ea,
  0x1d01, 0x652e, 0xed5f, 0x9570, 0x8592, 0xfdbd, 0x75cc, 0x0de3,
  0xc61a, 0xbe35, 0x3644, 0x4e6b, 0x5e89, 0x26a6, 0xaed7, 0xd6f8,
  0x8f13, 0xf73c, 0x7f4d, 0x0762, 0x1780, 0x6faf, 0xe7de, 0x9ff1,
  0xb015, 0xc83a, 0x404b, 0x3864, 0x2886, 0x50a9, 0xd8d8, 0xa0f7,
  0xf91c, 0x8133, 0x0942, 0x716d, 0x618f, 0x19a0, 0x91d1, 0xe9fe,
  0x2207, 0x5a28, 0xd259, 0xaa76, 0xba94, 0xc2bb, 0x4aca, 0x32e5,
  0x6b0e, 0x1321, 0x9b50, 0xe37f, 0xf39d, 0x8bb2, 0x03c3, 0x7bec,
  0xec1e, 0x9431, 0x1c40, 0x646f, 0x748d, 0x0ca2, 0x84d3, 0xfcfc,
  0xa517, 0xdd38, 0x5549, 0x2d66, 0x3d84, 0x45ab, 0xcdda, 0xb5f5,
  0x7e0c, 0x0623, 0x8e52, 0xf67d, 0xe69f, 0x9eb0, 0x16c1, 0x6eee,
  0x3705, 0x4f2a, 0xc75b, 0xbf74, 0xaf96, 0xd7b9, 0x5fc8, 0x27e7]

/-- An input byte window: a function from byte offsets to byte values. -/
def Bytes := Nat → Nat

/-- Reading one `guint8` from the window. -/
def rd (d : Bytes) (i : Nat) : Nat := d i % 256

/-- One iteration of the CRC loop in `gst_dabplusparse_check_firecode`:
`pos = (firecode >> 8) ^ data[i]; firecode = (guint16)((firecode << 8) ^ table[pos])`. -/
def firecode_step (fc b : Nat) : Nat :=
  let pos := (fc >>> 8) ^^^ b
  ((fc <<< 8) ^^^ firecode_crc_table.getD pos 0) % 65536

/-- The CRC-16 computed over `data[base+2 .. base+10]` (the loop
`for (i = 2; i < FIRECODE_LENGTH; ++i)` starting from `firecode = 0`). -/
def firecode_crc (d : Bytes) (base : Nat) : Nat :=
  (List.range 9).foldl (fun fc i => firecode_step fc (rd d (base + 2 + i))) 0

/-- `gst_dabplusparse_check_firecode (data + base)`: reads the 16-bit
big-endian guard from the first two bytes, computes the CRC over the next
nine, and accepts only a non-zero CRC equal to the guard. -/
def check_firecode (d : Bytes) (base : Nat) : Bool :=
  let header_firecode := (rd d base <<< 8) ||| rd d (base + 1)
  let firecode := firecode_crc d base
  if header_firecode ≠ firecode then false
  else if firecode = 0 then false
  else true

/-- One access-unit descriptor of the superframe header (`start`/`size` are
`guint` in the source). -/
structure AU where
  start : Nat
  size : Nat
deriving DecidableEq, Repr, Inhabited

/-- The decoded `GstDabPlusSuperframeHeader`. All fields are `guint` in the
source; `au` holds the `num_aus` populated descriptors. -/
structure SuperframeHeader where
  header_firecode : Nat
  rfa : Nat
  dac_rate : Nat
  sbr_flag : Nat
  aac_channel_mode : Nat
  ps_flag : Nat
  mpeg_surround_config : Nat
  num_aus : Nat
  au : List AU
deriving DecidableEq, Repr, Inhabited

/-- 32-bit unsigned subtraction (`guint` arithmetic): `(a - b) mod 2^32`. -/
def sub32 (a b : Nat) : Nat :=
  ((a % 4294967296) + 4294967296 - b % 4294967296) % 4294967296

/-- `aus_end = framesize - (framesize / SUPERFRAME_MIN_SIZE) * RS_CODE_SIZE`
from `gst_dabplusparse_parse_superframe_header` (no underflow is possible,
so plain `Nat` subtraction is exact here). -/
def aus_end (framesize : Nat) : Nat :=
  framesize - (framesize / SUPERFRAME_MIN_SIZE) * RS_CODE_SIZE

/-- The AU size computation of `gst_dabplusparse_parse_superframe_header`:
`au[i].size = au[i+1].start - au[i].start - 2` for all but the last AU, and
`au[last].size = aus_end - au[last].start - 2`, in `guint` arithmetic. -/
def mk_aus (framesize : Nat) : List Nat → List AU
  | [] => []
  | [s] => [{ start := s, size := sub32 (sub32 (aus_end framesize) s) 2 }]
  | s :: s2 :: rest =>
    { start := s, size := sub32 (sub32 s2 s) 2 } :: mk_aus framesize (s2 :: rest)

/-- The `switch (hdr->num_aus)` of `gst_dabplusparse_parse_superframe_header`
with its fall-through cases: for each admissible AU count the list of start
offsets read (each larger count extends the smaller count's extraction), and
`none` for the `default` branch (`return FALSE`). -/
def au_starts (num_aus s0 s1 s2 s3 s4 s5 : Nat) : Option (List Nat) :=
  match num_aus with
  | 2 => some [s0, s1]
  | 3 => some [s0, s1, s2]
  | 4 => some [s0, s1, s2, s3]
  | 6 => some [s0, s1, s2, s3, s4, s5]
  | _ => none

/-- `gst_dabplusparse_parse_superframe_header`: decodes the packed bitfields
of byte 2, derives `num_aus` and `au[0].start` from `(sbr_flag, dac_rate)`,
extracts the remaining 12-bit AU start offsets (the cascading `switch` with
fall-through, `au_starts`), and computes the AU sizes. Returns `none` exactly
on the `default` branch of the `switch` (unreachable for the values of
`num_aus` this function assigns). -/
def parse_superframe_header (d : Bytes) (framesize : Nat) : Option SuperframeHeader :=
  let header_firecode := (rd d 0 <<< 8) ||| rd d 1
  let rfa := if rd d 2 &&& 0x80 ≠ 0 then 1 else 0
  let dac_rate := if rd d 2 &&& 0x40 ≠ 0 then 1 else 0
  let sbr_flag := if rd d 2 &&& 0x20 ≠ 0 then 1 else 0
  let aac_channel_mode := if rd d 2 &&& 0x10 ≠ 0 then 1 else 0
  let ps_flag := if rd d 2 &&& 0x08 ≠ 0 then 1 else 0
  let mpeg_surround_config := rd d 2 &&& 0x07
  let na := if sbr_flag ≠ 0 then (if dac_rate = 0 then (2, 5) else (3, 6))
            else (if dac_rate = 0 then (4, 8) else (6, 11))
  let s1 := (rd d 3 <<< 4) ||| (rd d 4 >>> 4)
  let s2 := ((rd d 4 <<< 8) &&& 0xf00) ||| rd d 5
  let s3 := (rd d 6 <<< 4) ||| (rd d 7 >>> 4)
  let s4 := ((rd d 7 <<< 8) &&& 0xf00) ||| rd d 8
  let s5 := (rd d 9 <<< 4) ||| (rd d 10 >>> 4)
  match au_starts na.1 na.2 s1 s2 s3 s4 s5 with
  | none => none
  | some ss => some {
      header_firecode := header_firecode, rfa := rfa, dac_rate := dac_rate,
      sbr_flag := sbr_flag, aac_channel_mode := aac_channel_mode, ps_flag := ps_flag,
      mpeg_surround_config := mpeg_surround_config, num_aus := na.1,
      au := mk_aus framesize ss }

/-- The scan loop of `gst_dabplusparse_detect_stream`: starting at offset `i`
with `fuel` offsets left before the loop bound, return the first offset at
which the firecode check succeeds. -/
def find_firecode (d : Bytes) : Nat → Nat → Option Nat
  | 0, _ => none
  | fuel + 1, i => if check_firecode d i then some i else find_firecode d fuel (i + 1)

/-- The outcome of `gst_dabplusparse_detect_stream`: `needMore` is the
`avail < SUPERFRAME_MAX_SIZE + FIRECODE_LENGTH` early exit, `notFound k`
is `return FALSE` with `*skipsize = k`, and `found size` is `return TRUE`
with `dabplusparse->superframe_size = size`. -/
inductive DetectResult where
  | needMore
  | notFound (skipsize : Nat)
  | found (size : Nat)
deriving DecidableEq, Repr, Inhabited

/-- `gst_dabplusparse_detect_stream`: find a first firecode match (which must
be at offset 0, otherwise skip to it), then a second match from offset
`SUPERFRAME_MIN_SIZE` on; their distance must be a multiple of
`SUPERFRAME_MIN_SIZE` and becomes the superframe size. On loop exhaustion the
skip count is the final loop cursor (`start + (limit - start)`). -/
def detect_stream (d : Bytes) (avail : Nat) : DetectResult :=
  if avail < SUPERFRAME_MAX_SIZE + FIRECODE_LENGTH then .needMore
  else
    let limit := avail - FIRECODE_LENGTH
    match find_firecode d limit 0 with
    | none => .notFound limit
    | some i =>
      if i ≠ 0 then .notFound i
      else
        match find_firecode d (limit - SUPERFRAME_MIN_SIZE) SUPERFRAME_MIN_SIZE with
        | none => .notFound (SUPERFRAME_MIN_SIZE + (limit - SUPERFRAME_MIN_SIZE))
        | some j =>
          if j % SUPERFRAME_MIN_SIZE ≠ 0 then .notFound j
          else .found j

/-- `gst_dabplusparse_superframe_header_compare_audio_params`. -/
def compare_audio_params (h1 h2 : SuperframeHeader) : Bool :=
  (h1.dac_rate == h2.dac_rate) &&
  (h1.sbr_flag == h2.sbr_flag) &&
  (h1.aac_channel_mode == h2.aac_channel_mode) &&
  (h1.ps_flag == h2.ps_flag) &&
  (h1.mpeg_surround_config == h2.mpeg_surround_config)

/-- The value every `guint` field takes after
`memset (&dabplusparse->superframe_header, 0377, ...)`. -/
def GUINT_ALL_ONES : Nat := 4294967295

/-- The stored comparison header after `gst_dabplusparse_reset`: all bytes
0xFF, i.e. every 32-bit field is `GUINT_ALL_ONES`. -/
def memset_superframe_header : SuperframeHeader :=
  { header_firecode := GUINT_ALL_ONES, rfa := GUINT_ALL_ONES, dac_rate := GUINT_ALL_ONES,
    sbr_flag := GUINT_ALL_ONES, aac_channel_mode := GUINT_ALL_ONES, ps_flag := GUINT_ALL_ONES,
    mpeg_surround_config := GUINT_ALL_ONES, num_aus := GUINT_ALL_ONES,
    au := List.replicate 6 { start := GUINT_ALL_ONES, size := GUINT_ALL_ONES } }

/-- `GstDabPlusHeaderType`. -/
inductive HeaderType where
  | notParsed
  | unknown
  | superframe
  | raw
  | adts
deriving DecidableEq, Repr, Inhabited

/-- The `GstFlowReturn` values produced by `gst_dabplusparse_handle_frame`:
`GST_FLOW_OK`, `GST_FLOW_ERROR` and `GST_FLOW_NOT_LINKED`. -/
inductive FlowRet where
  | ok
  | error
  | notLinked
deriving DecidableEq, Repr, Inhabited

/-- The mutable fields of `GstDabPlusParse` used by the state machine. -/
structure ParserState where
  object_type : Int
  sample_rate : Int
  channels : Int
  i_header_type : HeaderType
  o_header_type : HeaderType
  superframe_size : Nat
  superframe_header : SuperframeHeader
deriving DecidableEq, Repr, Inhabited

/-- `gst_dabplusparse_reset`: parameters to −1, header types to
`DABPLUS_HEADER_NOT_PARSED`, superframe size 0, stored header filled with
0xFF bytes. -/
def reset_state : ParserState :=
  { object_type := -1, sample_rate := -1, channels := -1,
    i_header_type := .notParsed, o_header_type := .notParsed,
    superframe_size := 0, superframe_header := memset_superframe_header }

/-- The `object_type` assignment of `gst_dabplusparse_handle_frame` (both
branches assign 1; the SBR alternative 5 is commented out in the source). -/
def resolve_object_type (hdr : SuperframeHeader) : Int :=
  if hdr.sbr_flag ≠ 0 then 1 else 1

/-- The `sample_rate` assignment of `gst_dabplusparse_handle_frame`. -/
def resolve_sample_rate (hdr : SuperframeHeader) : Int :=
  if hdr.dac_rate ≠ 0 then (if hdr.sbr_flag ≠ 0 then 24000 else 48000)
  else (if hdr.sbr_flag ≠ 0 then 16000 else 32000)

/-- The `channels` assignment of `gst_dabplusparse_handle_frame`: the
`switch (hdr->mpeg_surround_config)` inside `if (mpeg_surround_config > 0)`,
whose `default` branch assigns 0, and `aac_channel_mode + 1` otherwise. -/
def resolve_channels (hdr : SuperframeHeader) : Int :=
  if hdr.mpeg_surround_config > 0 then
    match hdr.mpeg_surround_config with
    | 1 => 6
    | 2 => 8
    | _ => 0
  else (hdr.aac_channel_mode : Int) + 1

/-- `gst_dabplusparse_get_audio_channel_configuration`; 255 is `G_MAXUINT8`
(the "no such value" result). -/
def get_audio_channel_configuration (num_channels : Int) : Nat :=
  if 1 ≤ num_channels ∧ num_channels ≤ 6 then num_channels.toNat
  else if num_channels = 8 then 7
  else 255

/-- `gst_dabplusparse_get_audio_sampling_frequency_index`; 255 is
`G_MAXUINT8`. -/
def get_audio_sampling_frequency_index (sample_rate : Int) : Nat :=
  if sample_rate = 96000 then 0x0
  else if sample_rate = 88200 then 0x1
  else if sample_rate = 64000 then 0x2
  else if sample_rate = 48000 then 0x3
  else if sample_rate = 44100 then 0x4
  else if sample_rate = 32000 then 0x5
  else if sample_rate = 24000 then 0x6
  else if sample_rate = 22050 then 0x7
  else if sample_rate = 16000 then 0x8
  else if sample_rate = 12000 then 0x9
  else if sample_rate = 11025 then 0xA
  else if sample_rate = 8000 then 0xB
  else if sample_rate = 7350 then 0xC
  else 255

/-- The distinct failure conditions of `gst_dabplusparse_prepend_adts_headers`
(each is a separate `GST_ERROR_OBJECT` + `return FALSE` in the source). -/
inductive AdtsError where
  | unsupportedProfile
  | unsupportedChannels
  | unsupportedRate
  | frameTooLarge
deriving DecidableEq, Repr, Inhabited

/-- `gst_dabplusparse_prepend_adts_headers`: validates profile, channel
configuration and sampling-frequency index, rejects
`frame_size = buf_size + ADTS_HEADER_LENGTH ≥ 0x4000`, and otherwise builds
the 7 ADTS header bytes exactly as the source does (each byte is a `guint8`
assignment, hence the `% 256`). The `profile` argument is the value obtained
from the source-pad caps by `gst_dabplusparse_get_audio_profile_object_type`
(an external collaborator; 255 = `G_MAXUINT8` = unknown). -/
def prepend_adts_headers (profile : Nat) (channels sample_rate : Int) (buf_size : Nat) :
    Except AdtsError (List Nat) :=
  if profile = 255 then .error .unsupportedProfile
  else
    let channel_configuration := get_audio_channel_configuration channels
    if channel_configuration = 255 then .error .unsupportedChannels
    else
      let sampling_frequency_index := get_audio_sampling_frequency_index sample_rate
      if sampling_frequency_index = 255 then .error .unsupportedRate
      else
        let frame_size := buf_size + ADTS_HEADER_LENGTH
        if frame_size ≥ 0x4000 then .error .frameTooLarge
        else .ok [
          0xFF,
          0xF0 ||| (0 <<< 3) ||| 0x1,
          ((profile <<< 6) ||| (sampling_frequency_index <<< 2) ||| 0x2 |||
            (channel_configuration &&& 0x4)) % 256,
          (((channel_configuration &&& 0x3) <<< 6) ||| 0x30 ||| (frame_size >>> 11)) % 256,
          (frame_size >>> 3) &&& 0xFF,
          (((frame_size &&& 0x7) <<< 5) + 0x1F) % 256,
          0xFC]

/-- One output buffer pushed downstream by `gst_base_parse_finish_frame`:
the AU slice `[start, start + size)` of the superframe, with the 7 ADTS
header bytes prepended in ADTS output mode. -/
structure OutFrame where
  start : Nat
  size : Nat
  adts : Option (List Nat)
deriving DecidableEq, Repr, Inhabited

/-- The AU emission loop of `gst_dabplusparse_handle_frame`: for each AU in
order, slice it out and (in ADTS mode) prepend the ADTS header; a header
synthesis failure returns `GST_FLOW_ERROR` immediately, leaving the already
finished frames pushed. Downstream `gst_base_parse_finish_frame` is modelled
as always succeeding. -/
def emit_aus (profile : Nat) (channels sample_rate : Int) (otype : HeaderType) :
    List AU → List OutFrame × FlowRet
  | [] => ([], .ok)
  | a :: rest =>
    if otype = .adts then
      match prepend_adts_headers profile channels sample_rate a.size with
      | .error _ => ([], .error)
      | .ok h =>
        let r := emit_aus profile channels sample_rate otype rest
        ({ start := a.start, size := a.size, adts := some h } :: r.1, r.2)
    else
      let r := emit_aus profile channels sample_rate otype rest
      ({ start := a.start, size := a.size, adts := none } :: r.1, r.2)

/-- The result of one `gst_dabplusparse_handle_frame` invocation: the updated
element state, the `*skipsize` out-parameter, the `GstFlowReturn`, and the
buffers pushed downstream during this invocation. -/
structure HandleResult where
  state : ParserState
  skipsize : Nat
  ret : FlowRet
  emitted : List OutFrame
deriving DecidableEq, Repr, Inhabited

/-- The synchronization step at the top of `gst_dabplusparse_handle_frame`:
if not yet locked onto superframes, run `gst_dabplusparse_detect_stream`;
on failure return `GST_FLOW_OK` with the skip count, on success record the
superframe size and switch the header types. -/
def handle_sync (st : ParserState) (d : Bytes) (size : Nat) :
    Sum (Nat × FlowRet) ParserState :=
  if st.i_header_type ≠ .superframe then
    match detect_stream d size with
    | .needMore => .inl (0, .ok)
    | .notFound k => .inl (k, .ok)
    | .found fsz => .inr { st with i_header_type := .superframe, o_header_type := .adts,
                                   superframe_size := fsz }
  else .inr st

/-- The output phase of `gst_dabplusparse_handle_frame`: the negotiated
output mode must be ADTS or raw (`GST_FLOW_NOT_LINKED` otherwise), then the
AU loop runs. -/
def handle_frame_emit (st : ParserState) (hdr : SuperframeHeader) (profile : Nat) :
    HandleResult :=
  if st.o_header_type ≠ .adts ∧ st.o_header_type ≠ .raw then
    { state := st, skipsize := 0, ret := .notLinked, emitted := [] }
  else
    let r := emit_aus profile st.channels st.sample_rate st.o_header_type hdr.au
    { state := st, skipsize := 0, ret := r.2, emitted := r.1 }

/-- `gst_dabplusparse_handle_frame` on one input window of `size` bytes:
synchronize if needed; require `size ≥ superframe_size` (a hard
`GST_FLOW_ERROR` unless the base parser is draining); re-check the firecode
at offset 0 and decode the header, resetting the element on failure; on a
parameter change resolve the audio parameters and renegotiate
(`negotiated = none` models `gst_dabplusparse_set_src_caps` failing, which
yields `GST_FLOW_NOT_LINKED`; `some o` models it succeeding with output mode
`o`); finally emit the AUs. -/
def handle_frame (st : ParserState) (d : Bytes) (size : Nat) (draining : Bool)
    (negotiated : Option HeaderType) (profile : Nat) : HandleResult :=
  match handle_sync st d size with
  | .inl (k, r) => { state := st, skipsize := k, ret := r, emitted := [] }
  | .inr st1 =>
    if size < st1.superframe_size then
      (if draining = false then { state := st1, skipsize := 0, ret := .error, emitted := [] }
       else { state := st1, skipsize := 0, ret := .ok, emitted := [] })
    else if check_firecode d 0 = false then
      { state := reset_state, skipsize := 0, ret := .ok, emitted := [] }
    else
      match parse_superframe_header d st1.superframe_size with
      | none => { state := reset_state, skipsize := 0, ret := .ok, emitted := [] }
      | some hdr =>
        let same := compare_audio_params hdr st1.superframe_header
        let st2 := { st1 with superframe_header := hdr }
        if same = false then
          let st3 := { st2 with object_type := resolve_object_type hdr,
                                sample_rate := resolve_sample_rate hdr,
                                channels := resolve_channels hdr }
          match negotiated with
          | none => { state := st3, skipsize := 0, ret := .notLinked, emitted := [] }
          | some o => handle_frame_emit { st3 with o_header_type := o } hdr profile
        else handle_frame_emit st2 hdr profile

/-! ### Concrete input windows used as test vectors -/

/-- An 11-byte block with a valid firecode guard: the CRC over the payload
`[1, 0, 0, 0, 0, 0, 0, 0, 0]` is 0x5002. -/
def sync_block : List Nat := [0x50, 0x02, 1, 0, 0, 0, 0, 0, 0, 0, 0]

/-- A window with valid firecode blocks at offsets 0 and 26040 (= 217 × 120)
and zero bytes everywhere else. -/
def c4_bytes : Bytes := fun j => if j % 26040 < 11 then sync_block.getD (j % 26040) 0 else 0

/-- A window with a valid firecode block at every multiple of 120. -/
def c4w_bytes : Bytes := fun j => if j % 120 < 11 then sync_block.getD (j % 120) 0 else 0

/-- A frame whose byte 2 is 0x20 (`sbr_flag = 1`, `dac_rate = 0`, so 2 AUs
with `au[0].start = 5`) and whose decoded `au[1].start` is 50. -/
def c1_bytes : Bytes := fun j => [0, 0, 0x20, 3, 0x20].getD j 0

/-- A firecode-valid frame whose byte 2 is 0x23: `sbr_flag = 1`,
`dac_rate = 0`, `mpeg_surround_config = 3`; `au[1].start = 50`. -/
def c7_bytes : Bytes := fun j => [0xF9, 0xCF, 0x23, 3, 0x20].getD j 0

/-- A firecode-valid frame whose byte 2 is 0x20 and whose decoded
`au[1].start` is 109, so that in a 120-byte superframe the last AU size
wraps around to 2^32 − 1. -/
def c8_bytes : Bytes := fun j => [0xD0, 0xAE, 0x20, 6, 0xD0].getD j 0

/-- The all-zero window. -/
def zero_bytes : Bytes := fun _ => 0

/-- A freshly reset element that has already locked onto 120-byte
superframes. -/
def sync_state : ParserState :=
  { reset_state with i_header_type := .superframe, o_header_type := .adts,
                     superframe_size := 120 }

/-- The header decoded from `c1_bytes` with frame size 120. -/
def c1_hdr : SuperframeHeader :=
  { header_firecode := 0, rfa := 0, dac_rate := 0, sbr_flag := 1, aac_channel_mode := 0,
    ps_flag := 0, mpeg_surround_config := 0, num_aus := 2,
    au := [{ start := 5, size := 43 }, { start := 50, size := 58 }] }

/-- The header decoded from `zero_bytes` with frame size 120. -/
def zero_hdr : SuperframeHeader :=
  { header_firecode := 0, rfa := 0, dac_rate := 0, sbr_flag := 0, aac_channel_mode := 0,
    ps_flag := 0, mpeg_surround_config := 0, num_aus := 4,
    au := [{ start := 8, size := 4294967286 }, { start := 0, size := 4294967294 },
           { start := 0, size := 4294967294 }, { start := 0, size := 108 }] }

/-! ### Helper lemmas -/

/-- `sub32` agrees with exact subtraction when no wrap-around occurs. -/
theorem sub32_eq (a b : Nat) (hb : b ≤ a) (ha : a < 4294967296) : sub32 a b = a - b := by
  unfold sub32
  rw [Nat.mod_eq_of_lt ha, Nat.mod_eq_of_lt (lt_of_le_of_lt hb ha)]
  rw [show a + 4294967296 - b = (a - b) + 4294967296 by omega]
  rw [Nat.add_mod_right]
  exact Nat.mod_eq_of_lt (by omega)

/-- The scan loop never reports an offset before its starting point. -/
theorem find_firecode_le (d : Bytes) :
    ∀ fuel i j, find_firecode d fuel i = some j → i ≤ j := by
  intro fuel
  induction fuel with
  | zero => intro i j h; simp [find_firecode] at h
  | succ f ih =>
    intro i j h
    rw [find_firecode] at h
    by_cases hc : check_firecode d i
    · rw [if_pos hc] at h
      injection h with h
      omega
    · rw [if_neg hc] at h
      have := ih (i + 1) j h
      omega

/-- The four admissible cases of the AU-start `switch`. -/
theorem au_starts_case_2 (s0 s1 s2 s3 s4 s5 : Nat) :
    au_starts 2 s0 s1 s2 s3 s4 s5 = some [s0, s1] := rfl

/-- The 3-AU case of the AU-start `switch`. -/
theorem au_starts_case_3 (s0 s1 s2 s3 s4 s5 : Nat) :
    au_starts 3 s0 s1 s2 s3 s4 s5 = some [s0, s1, s2] := rfl

/-- The 4-AU case of the AU-start `switch`. -/
theorem au_starts_case_4 (s0 s1 s2 s3 s4 s5 : Nat) :
    au_starts 4 s0 s1 s2 s3 s4 s5 = some [s0, s1, s2, s3] := rfl

/-- The 6-AU case of the AU-start `switch`. -/
theorem au_starts_case_6 (s0 s1 s2 s3 s4 s5 : Nat) :
    au_starts 6 s0 s1 s2 s3 s4 s5 = some [s0, s1, s2, s3, s4, s5] := rfl

/-- Every start list produced by the AU-start `switch` is non-empty and has
exactly `num_aus` entries. -/
theorem au_starts_spec (n s0 s1 s2 s3 s4 s5 : Nat) (ss : List Nat)
    (h : au_starts n s0 s1 s2 s3 s4 s5 = some ss) :
    ss.length = n ∧ ss ≠ [] := by
  unfold au_starts at h
  split at h
  all_goals first
    | (rw [Option.some.injEq] at h; subst h; simp)
    | exact absurd h (by simp)

/-- The AU list built from a non-empty start list begins with the first
start. -/
theorem mk_aus_cons (fs s : Nat) (ss : List Nat) :
    ∃ z t, mk_aus fs (s :: ss) = { start := s, size := z } :: t := by
  cases ss with
  | nil => exact ⟨_, _, rfl⟩
  | cons b l => exact ⟨_, _, rfl⟩

/-- The size computation of `mk_aus` on a start list that is strictly
increasing (with the 2-byte AU overhead) and bounded by `aus_end`: sizes are
the exact successive differences minus 2, the last AU ends at `aus_end`, and
the sizes, overheads and `au[0].start` partition `aus_end`. -/
theorem mk_aus_spec (fs : Nat) (hfs : fs < 4294967296) :
    ∀ ss : List Nat, ss ≠ [] →
      (∀ a ∈ mk_aus fs ss, a.start + 2 ≤ aus_end fs) →
      (mk_aus fs ss).Chain' (fun a b => a.start + 2 ≤ b.start) →
      (mk_aus fs ss).Chain' (fun a b => a.size + 2 + a.start = b.start) ∧
      (∀ a ∈ (mk_aus fs ss).getLast?, a.size + 2 + a.start = aus_end fs) ∧
      ((mk_aus fs ss).map AU.size).sum + 2 * ss.length +
        ((mk_aus fs ss).head?.elim 0 AU.start) = aus_end fs := by
  have hA : aus_end fs < 4294967296 := lt_of_le_of_lt (Nat.sub_le _ _) hfs
  intro ss
  induction ss with
  | nil => intro h; exact absurd rfl h
  | cons s rest ih =>
    intro _ hmem hchain
    cases rest with
    | nil =>
      have hs : s + 2 ≤ aus_end fs := by
        simpa [mk_aus] using hmem
      have e : sub32 (sub32 (aus_end fs) s) 2 = aus_end fs - s - 2 := by
        rw [sub32_eq (aus_end fs) s (by omega) hA, sub32_eq _ 2 (by omega) (by omega)]
      refine ⟨?_, ?_, ?_⟩
      · simp [mk_aus, List.chain'_singleton]
      · intro a ha
        simp only [mk_aus, List.getLast?_singleton, Option.mem_def, Option.some.injEq] at ha
        subst ha
        simp [e]
        omega
      · simp [mk_aus, e]
        omega
    | cons s2 rest2 =>
      obtain ⟨z, t, hz⟩ := mk_aus_cons fs s2 rest2
      have hexp : mk_aus fs (s :: s2 :: rest2)
          = { start := s, size := sub32 (sub32 s2 s) 2 } :: mk_aus fs (s2 :: rest2) := rfl
      rw [hexp] at hmem hchain ⊢
      have hmem' : ∀ a ∈ mk_aus fs (s2 :: rest2), a.start + 2 ≤ aus_end fs :=
        fun a ha => hmem a (List.mem_cons_of_mem _ ha)
      rw [List.chain'_cons'] at hchain
      obtain ⟨hhd, htl⟩ := hchain
      have hss2 : s + 2 ≤ s2 := by
        have := hhd { start := s2, size := z } (by rw [hz]; simp)
        simpa using this
      have hs2A : s2 + 2 ≤ aus_end fs := by
        have := hmem' { start := s2, size := z } (by rw [hz]; simp)
        simpa using this
      have e : sub32 (sub32 s2 s) 2 = s2 - s - 2 := by
        rw [sub32_eq s2 s (by omega) (by omega), sub32_eq _ 2 (by omega) (by omega)]
      have ihh := ih (by simp) hmem' htl
      refine ⟨?_, ?_, ?_⟩
      · rw [List.chain'_cons']
        refine ⟨?_, ihh.1⟩
        intro b hb
        rw [hz] at hb
        simp only [List.head?_cons, Option.mem_def, Option.some.injEq] at hb
        subst hb
        simp [e]
        omega
      · intro a ha
        rw [hz, List.getLast?_cons_cons, ← hz] at ha
        exact ihh.2.1 a ha
      · have hsum := ihh.2.2
        rw [hz] at hsum ⊢
        simp only [List.map_cons, List.sum_cons, List.length_cons, List.head?_cons,
          Option.elim] at hsum ⊢
        simp only [e]
        omega

/-! ### Claim theorems -/

/-- Claim C3 (confirmed): for every input window and offset, the firecode
validator accepts exactly when the big-endian 16-bit guard equals the CRC-16
computed over the following nine bytes and that CRC is non-zero. -/
theorem c3_check_firecode_iff (d : Bytes) (base : Nat) :
    check_firecode d base = true ↔
      ((rd d base <<< 8) ||| rd d (base + 1) = firecode_crc d base ∧
       firecode_crc d base ≠ 0) := by
  simp only [check_firecode]
  split_ifs with h1 h2 <;> simp_all

/-- Claim C9 (confirmed): the header decoder performs no validation of the AU
start offsets. On the all-zero frame the decoded starts are `[8, 0, 0, 0]`
(not increasing), the unsigned size subtractions wrap modulo 2^32
(e.g. `0 − 8 − 2 ≡ 4294967286`), and decoding still succeeds. -/
theorem c9_wraparound_sizes :
    parse_superframe_header zero_bytes 120 = some zero_hdr ∧
    zero_hdr.au.map AU.start = [8, 0, 0, 0] ∧
    (4294967286 : Nat) = (0 + 2 ^ 32 - 8 - 2) % 2 ^ 32 := by
  refine ⟨rfl, rfl, by norm_num⟩

/-- Claim C10 (confirmed): the reset pattern (all fields 0xFF…FF) can never
equal a decoded header, because every decoded comparison field is 0/1 (or at
most 7 for the surround config); hence the first decoded superframe after any
reset compares unequal and triggers parameter resolution. -/
theorem c10_reset_header_never_matches (d : Bytes) (fs : Nat) (hdr : SuperframeHeader)
    (hp : parse_superframe_header d fs = some hdr) :
    compare_audio_params hdr memset_superframe_header = false := by
  simp only [parse_superframe_header] at hp
  split at hp
  · exact absurd hp (by simp)
  · rw [Option.some.injEq] at hp
    subst hp
    simp only [compare_audio_params, memset_superframe_header, GUINT_ALL_ONES]
    by_cases hd : rd d 2 &&& 0x40 ≠ 0 <;> simp [hd]

/-- Witness for C10 at the all-zero frame. -/
theorem c10_reset_header_witness :
    parse_superframe_header zero_bytes 120 = some zero_hdr ∧
    compare_audio_params zero_hdr memset_superframe_header = false :=
  ⟨rfl, c10_reset_header_never_matches zero_bytes 120 zero_hdr rfl⟩

/-- Claim C2 (counterexample): with the parser synchronized on 120-byte
superframes and only 50 bytes available, `handle_frame` (not draining)
returns `GST_FLOW_ERROR` — a session-terminating error, not a non-fatal
need-more-data result. -/
theorem c2_short_window_counterexample :
    (handle_frame sync_state zero_bytes 50 false (some .adts) 1).ret = .error ∧
    FlowRet.error ≠ FlowRet.ok :=
  ⟨rfl, by decide⟩

/-- Claim C2 (amended): in the synchronized state with fewer than
`superframe_size` bytes available, `handle_frame` keeps the state and emits
nothing, returning `GST_FLOW_OK` (non-fatal) only when the base parser is
draining and the hard error `GST_FLOW_ERROR` otherwise. -/
theorem c2_short_window_amended (st : ParserState) (d : Bytes) (size : Nat)
    (draining : Bool) (negotiated : Option HeaderType) (profile : Nat)
    (hsync : st.i_header_type = .superframe)
    (hlt : size < st.superframe_size) :
    handle_frame st d size draining negotiated profile =
      { state := st, skipsize := 0,
        ret := if draining then .ok else .error, emitted := [] } := by
  unfold handle_frame handle_sync
  simp only [hsync, ne_eq, not_true_eq_false, ite_false, if_false, reduceIte]
  rw [if_pos hlt]
  cases draining <;> simp

/-- Witness for the amended C2 in the draining case. -/
theorem c2_short_window_witness :
    sync_state.i_header_type = .superframe ∧ 50 < sync_state.superframe_size ∧
    handle_frame sync_state zero_bytes 50 true (some .adts) 1 =
      { state := sync_state, skipsize := 0,
        ret := if true then .ok else .error, emitted := [] } :=
  ⟨rfl, by decide,
   c2_short_window_amended sync_state zero_bytes 50 true (some .adts) 1 rfl (by decide)⟩

/-- Claim C5 (confirmed): `num_aus` and `au[0].start` are determined by
`(sbr_flag, dac_rate)` exactly by the table (1,0)→(2,5), (1,1)→(3,6),
(0,0)→(4,8), (0,1)→(6,11). -/
theorem c5_num_aus_table (d : Bytes) (fs : Nat) (hdr : SuperframeHeader)
    (hp : parse_superframe_header d fs = some hdr) :
    (hdr.sbr_flag = 1 ∧ hdr.dac_rate = 0 →
      hdr.num_aus = 2 ∧ hdr.au.head?.map AU.start = some 5) ∧
    (hdr.sbr_flag = 1 ∧ hdr.dac_rate = 1 →
      hdr.num_aus = 3 ∧ hdr.au.head?.map AU.start = some 6) ∧
    (hdr.sbr_flag = 0 ∧ hdr.dac_rate = 0 →
      hdr.num_aus = 4 ∧ hdr.au.head?.map AU.start = some 8) ∧
    (hdr.sbr_flag = 0 ∧ hdr.dac_rate = 1 →
      hdr.num_aus = 6 ∧ hdr.au.head?.map AU.start = some 11) := by
  by_cases hs : rd d 2 &&& 0x20 ≠ 0 <;> by_cases hd : rd d 2 &&& 0x40 ≠ 0 <;>
  · norm_num [parse_superframe_header, hs, hd, au_starts_case_2, au_starts_case_3,
      au_starts_case_4, au_starts_case_6, Option.some.injEq] at hp
    subst hp
    simp [mk_aus]

/-- Witness for C5 at a concrete frame with `sbr_flag = 1`, `dac_rate = 0`. -/
theorem c5_num_aus_witness :
    parse_superframe_header c1_bytes 120 = some c1_hdr ∧
    (c1_hdr.num_aus = 2 ∧ c1_hdr.au.head?.map AU.start = some 5) :=
  ⟨rfl, (c5_num_aus_table c1_bytes 120 c1_hdr rfl).1 (by decide)⟩

/-- Claim C7 (counterexample): on a firecode-valid frame with
`mpeg_surround_config = 3` the state machine does not fail; it resolves
`channels = 0` and (in raw output mode) emits both AUs with
`GST_FLOW_OK`. -/
theorem c7_surround_counterexample :
    (handle_frame sync_state c7_bytes 120 false (some .raw) 1).ret = .ok ∧
    (handle_frame sync_state c7_bytes 120 false
        (some .raw) 1).state.superframe_header.mpeg_surround_config = 3 ∧
    (handle_frame sync_state c7_bytes 120 false (some .raw) 1).state.channels = 0 ∧
    (handle_frame sync_state c7_bytes 120 false (some .raw) 1).emitted =
      [{ start := 5, size := 43, adts := none }, { start := 50, size := 58, adts := none }] :=
  ⟨rfl, rfl, rfl, rfl⟩

/-- Claim C7 (amended): the resolver maps `mpeg_surround_config` 0 to
`aac_channel_mode + 1`, 1 to 6 and 2 to 8; every other value (3..7) yields
`channels = 0` — no error is raised at resolution time. -/
theorem c7_resolve_channels_amended (hdr : SuperframeHeader) :
    (hdr.mpeg_surround_config = 0 →
      resolve_channels hdr = (hdr.aac_channel_mode : Int) + 1) ∧
    (hdr.mpeg_surround_config = 1 → resolve_channels hdr = 6) ∧
    (hdr.mpeg_surround_config = 2 → resolve_channels hdr = 8) ∧
    (3 ≤ hdr.mpeg_surround_config → resolve_channels hdr = 0) := by
  obtain ⟨hf, rfa, dac, sbr, mode, ps, sur, na, au⟩ := hdr
  refine ⟨?_, ?_, ?_, ?_⟩ <;> intro h <;> simp only at h
  · simp [resolve_channels, h]
  · simp [resolve_channels, h]
  · simp [resolve_channels, h]
  · obtain ⟨n, rfl⟩ : ∃ n, sur = n + 3 := ⟨sur - 3, by omega⟩
    show resolve_channels _ = 0
    unfold resolve_channels
    rw [if_pos (by simp only []; omega)]
    rfl

/-- Witness for the amended C7 at `mpeg_surround_config = 3`. -/
theorem c7_resolve_channels_witness :
    resolve_channels ({ header_firecode := 0, rfa := 0, dac_rate := 0, sbr_flag := 1,
                        aac_channel_mode := 0, ps_flag := 0, mpeg_surround_config := 3,
                        num_aus := 2, au := [] } : SuperframeHeader) = 0 :=
  (c7_resolve_channels_amended _).2.2.2 (by decide)

/-- The CRC over nine zero bytes is zero. -/
theorem firecode_crc_zero (d : Bytes) (base : Nat)
    (h : ∀ t, t < 11 → rd d (base + t) = 0) : firecode_crc d base = 0 := by
  unfold firecode_crc
  calc (List.range 9).foldl (fun fc i => firecode_step fc (rd d (base + 2 + i))) 0
      = (List.range 9).foldl (fun fc i => firecode_step fc 0) 0 := by
        apply List.foldl_ext
        intro fc i hi
        rw [List.mem_range] at hi
        rw [Nat.add_assoc, h (2 + i) (by omega)]
    _ = 0 := by decide

/-- A window whose eleven bytes starting at `base` are all zero fails the
firecode check: the guard is zero and a computed CRC of zero is rejected. -/
theorem check_firecode_zero (d : Bytes) (base : Nat)
    (h : ∀ t, t < 11 → rd d (base + t) = 0) : check_firecode d base = false := by
  have h0 : rd d base = 0 := by simpa using h 0 (by omega)
  have h1 := h 1 (by omega)
  have hcrc := firecode_crc_zero d base h
  simp only [check_firecode, hcrc, h0, h1]
  decide

/-- Skipping a run of offsets at which the firecode check fails does not
change the result of the scan loop. -/
theorem find_firecode_skip (d : Bytes) :
    ∀ (n i fuel : Nat), (∀ m, m < n → check_firecode d (i + m) = false) → n ≤ fuel →
      find_firecode d fuel i = find_firecode d (fuel - n) (i + n) := by
  intro n
  induction n with
  | zero => intro i fuel h hn; simp
  | succ k ih =>
    intro i fuel h hn
    cases fuel with
    | zero => omega
    | succ f =>
      have hc : check_firecode d i = false := by simpa using h 0 (by omega)
      rw [find_firecode, hc]
      simp only [Bool.false_eq_true, if_false]
      have step := ih (i + 1) f
        (fun m hm => by
          have hmem := h (m + 1) (by omega)
          rwa [show i + (m + 1) = i + 1 + m by omega] at hmem)
        (by omega)
      rw [step, show f - k = f + 1 - (k + 1) by omega,
        show i + 1 + k = i + (k + 1) by omega]

/-- In the `c4_bytes` window, every scan position whose 11-byte window lies
inside the zero-filled gap fails the firecode check. -/
theorem c4_bytes_zero_check (j : Nat) (h1 : 11 ≤ j) (h2 : j + 10 < 26040) :
    check_firecode c4_bytes j = false := by
  apply check_firecode_zero
  intro t ht
  show c4_bytes (j + t) % 256 = 0
  unfold c4_bytes
  rw [Nat.mod_eq_of_lt (show j + t < 26040 by omega)]
  rw [if_neg (by omega)]

/-- Success of `detect_stream`, assembled from the results of its two scan
loops. -/
theorem detect_stream_eq_found (d : Bytes) (avail j : Nat)
    (hge : ¬ avail < SUPERFRAME_MAX_SIZE + FIRECODE_LENGTH)
    (h1 : find_firecode d (avail - FIRECODE_LENGTH) 0 = some 0)
    (h2 : find_firecode d (avail - FIRECODE_LENGTH - SUPERFRAME_MIN_SIZE)
            SUPERFRAME_MIN_SIZE = some j)
    (hj : j % SUPERFRAME_MIN_SIZE = 0) :
    detect_stream d avail = .found j := by
  unfold detect_stream
  rw [if_neg hge]
  simp only [h1, h2, hj]
  simp

/-- Claim C4 (counterexample): on a window holding valid firecode guards at
offsets 0 and 26040 only, the synchronizer reports success with superframe
size 26040 = 217 × 120, which exceeds the claimed upper bound
`SUPERFRAME_MAX_SIZE = 216 × 120`; the code never checks the upper bound. -/
theorem c4_detect_counterexample :
    detect_stream c4_bytes 26052 = .found 26040 ∧ SUPERFRAME_MAX_SIZE < 26040 := by
  refine ⟨detect_stream_eq_found c4_bytes 26052 26040 (by decide) (by decide) ?_ (by decide),
    by decide⟩
  show find_firecode c4_bytes 25921 120 = some 26040
  have h2 : find_firecode c4_bytes 25921 120 = find_firecode c4_bytes 11 26030 := by
    have h := find_firecode_skip c4_bytes 25910 120 25921
      (fun m hm => c4_bytes_zero_check (120 + m) (by omega) (by omega)) (by omega)
    simpa using h
  rw [h2]
  decide

/-- Claim C4 (amended): whenever the synchronizer reports success, the
recorded superframe size is a positive multiple of `SUPERFRAME_MIN_SIZE`
(no upper bound is enforced); a second match at a non-multiple-of-120
separation yields not-found with a skip to that match, and an exhausted
second scan yields not-found with a skip to the final scan cursor. -/
theorem c4_detect_amended (d : Bytes) (avail k : Nat) :
    (detect_stream d avail = .found k →
      SUPERFRAME_MIN_SIZE ≤ k ∧ k % SUPERFRAME_MIN_SIZE = 0) ∧
    (¬ avail < SUPERFRAME_MAX_SIZE + FIRECODE_LENGTH →
      find_firecode d (avail - FIRECODE_LENGTH) 0 = some 0 →
      find_firecode d (avail - FIRECODE_LENGTH - SUPERFRAME_MIN_SIZE)
        SUPERFRAME_MIN_SIZE = some k →
      k % SUPERFRAME_MIN_SIZE ≠ 0 →
      detect_stream d avail = .notFound k) ∧
    (¬ avail < SUPERFRAME_MAX_SIZE + FIRECODE_LENGTH →
      find_firecode d (avail - FIRECODE_LENGTH) 0 = some 0 →
      find_firecode d (avail - FIRECODE_LENGTH - SUPERFRAME_MIN_SIZE)
        SUPERFRAME_MIN_SIZE = none →
      detect_stream d avail =
        .notFound (SUPERFRAME_MIN_SIZE + (avail - FIRECODE_LENGTH - SUPERFRAME_MIN_SIZE))) := by
  refine ⟨?_, ?_, ?_⟩
  · intro h
    unfold detect_stream at h
    split at h
    · exact absurd h (by simp)
    · simp only [] at h
      split at h
      · exact absurd h (by simp)
      · rename_i i hfind1
        split at h
        · exact absurd h (by simp)
        · split at h
          · exact absurd h (by simp)
          · rename_i j hfind2
            split at h
            · exact absurd h (by simp)
            · rename_i hmod
              injection h with h
              subst h
              refine ⟨find_firecode_le d _ _ _ hfind2, by omega⟩
  · intro hge h1 h2 hmod
    unfold detect_stream
    rw [if_neg hge]
    simp only [h1, h2, hmod]
    simp
    exact hmod
  · intro hge h1 h2
    unfold detect_stream
    rw [if_neg hge]
    simp only [h1, h2]
    simp

/-- Witness for the amended C4 on a window with guards at offsets 0 and
120. -/
theorem c4_detect_witness :
    detect_stream c4w_bytes 25931 = .found 120 ∧
    (SUPERFRAME_MIN_SIZE ≤ 120 ∧ 120 % SUPERFRAME_MIN_SIZE = 0) :=
  ⟨by decide, (c4_detect_amended c4w_bytes 25931 120).1 (by decide)⟩

/-- Claim C1 (counterexample): for the decoded 120-byte superframe with two
AUs starting at 5 and 50 the AU sizes are 43 and 58, so the sum of AU sizes
plus `2 × num_aus` plus the trailing Reed-Solomon parity is 115, not the
superframe size 120 (the 5 header bytes before `au[0].start` are missing
from the claimed accounting). -/
theorem c1_sum_counterexample :
    parse_superframe_header c1_bytes 120 = some c1_hdr ∧
    (c1_hdr.au.map AU.size).sum + 2 * c1_hdr.num_aus +
      (120 / SUPERFRAME_MIN_SIZE) * RS_CODE_SIZE = 115 ∧
    (115 : Nat) ≠ 120 :=
  ⟨rfl, by decide, by decide⟩

/-- Claim C1 (amended): for every decoded superframe header whose AU starts
are strictly increasing with at least 2 bytes of slack and fit below
`aus_end`, each AU's size is the next start minus its own start minus 2, the
last AU's size is `aus_end` minus its start minus 2, and the sum of AU sizes
plus `2 × num_aus` plus the Reed-Solomon parity plus `au[0].start` equals the
superframe size exactly. -/
theorem c1_au_sizes_amended (d : Bytes) (fs : Nat) (hdr : SuperframeHeader)
    (hp : parse_superframe_header d fs = some hdr)
    (hfs : fs < 4294967296)
    (hmem : ∀ a ∈ hdr.au, a.start + 2 ≤ aus_end fs)
    (hchain : hdr.au.Chain' (fun a b => a.start + 2 ≤ b.start)) :
    hdr.au.Chain' (fun a b => a.size + 2 + a.start = b.start) ∧
    (∀ a ∈ hdr.au.getLast?, a.size + 2 + a.start = aus_end fs) ∧
    (hdr.au.map AU.size).sum + 2 * hdr.num_aus +
      (fs / SUPERFRAME_MIN_SIZE) * RS_CODE_SIZE + (hdr.au.head?.elim 0 AU.start) = fs := by
  simp only [parse_superframe_header] at hp
  split at hp
  · exact absurd hp (by simp)
  · rename_i ss heq
    rw [Option.some.injEq] at hp
    subst hp
    obtain ⟨hlen, hne⟩ := au_starts_spec _ _ _ _ _ _ _ _ heq
    simp only at hmem hchain ⊢
    have spec := mk_aus_spec fs hfs ss hne hmem hchain
    refine ⟨spec.1, spec.2.1, ?_⟩
    have hparity : aus_end fs + fs / SUPERFRAME_MIN_SIZE * RS_CODE_SIZE = fs := by
      unfold aus_end
      have : fs / SUPERFRAME_MIN_SIZE * RS_CODE_SIZE ≤ fs := by
        unfold SUPERFRAME_MIN_SIZE RS_CODE_SIZE
        omega
      omega
    rw [← hlen]
    omega

/-- Witness for the amended C1 at the concrete frame behind the
counterexample: with well-ordered starts the corrected accounting holds. -/
theorem c1_au_sizes_witness :
    parse_superframe_header c1_bytes 120 = some c1_hdr ∧
    (∀ a ∈ c1_hdr.au, a.start + 2 ≤ aus_end 120) ∧
    c1_hdr.au.Chain' (fun a b => a.start + 2 ≤ b.start) ∧
    (c1_hdr.au.map AU.size).sum + 2 * c1_hdr.num_aus +
      (120 / SUPERFRAME_MIN_SIZE) * RS_CODE_SIZE + (c1_hdr.au.head?.elim 0 AU.start) = 120 :=
  ⟨rfl, by decide, by norm_num [c1_hdr, List.chain'_cons],
   (c1_au_sizes_amended c1_bytes 120 c1_hdr rfl (by norm_num) (by decide)
     (by norm_num [c1_hdr, List.chain'_cons])).2.2⟩

/-- The sampling-frequency lookup returns a table entry 0..12 or the failure
marker 255. -/
theorem get_sfi_cases (r : Int) : get_audio_sampling_frequency_index r ≤ 12 ∨
    get_audio_sampling_frequency_index r = 255 := by
  unfold get_audio_sampling_frequency_index
  by_cases h1 : r = 96000
  · rw [if_pos h1]; left; norm_num
  rw [if_neg h1]
  by_cases h2 : r = 88200
  · rw [if_pos h2]; left; norm_num
  rw [if_neg h2]
  by_cases h3 : r = 64000
  · rw [if_pos h3]; left; norm_num
  rw [if_neg h3]
  by_cases h4 : r = 48000
  · rw [if_pos h4]; left; norm_num
  rw [if_neg h4]
  by_cases h5 : r = 44100
  · rw [if_pos h5]; left; norm_num
  rw [if_neg h5]
  by_cases h6 : r = 32000
  · rw [if_pos h6]; left; norm_num
  rw [if_neg h6]
  by_cases h7 : r = 24000
  · rw [if_pos h7]; left; norm_num
  rw [if_neg h7]
  by_cases h8 : r = 22050
  · rw [if_pos h8]; left; norm_num
  rw [if_neg h8]
  by_cases h9 : r = 16000
  · rw [if_pos h9]; left; norm_num
  rw [if_neg h9]
  by_cases h10 : r = 12000
  · rw [if_pos h10]; left; norm_num
  rw [if_neg h10]
  by_cases h11 : r = 11025
  · rw [if_pos h11]; left; norm_num
  rw [if_neg h11]
  by_cases h12 : r = 8000
  · rw [if_pos h12]; left; norm_num
  rw [if_neg h12]
  by_cases h13 : r = 7350
  · rw [if_pos h13]; left; norm_num
  rw [if_neg h13]
  right
  rfl

/-- A sampling-frequency index that is not the failure marker is one of the
table entries 0..12. -/
theorem get_sfi_le (r : Int) (h : get_audio_sampling_frequency_index r ≠ 255) :
    get_audio_sampling_frequency_index r ≤ 12 :=
  (get_sfi_cases r).resolve_right h

/-- The channel-configuration lookup returns a value 1..7 or the failure
marker 255. -/
theorem get_cc_cases (n : Int) : get_audio_channel_configuration n ≤ 7 ∨
    get_audio_channel_configuration n = 255 := by
  unfold get_audio_channel_configuration
  split_ifs <;> omega

/-- A channel configuration that is not the failure marker is one of the
values 1..7. -/
theorem get_cc_le (n : Int) (h : get_audio_channel_configuration n ≠ 255) :
    get_audio_channel_configuration n ≤ 7 :=
  (get_cc_cases n).resolve_right h

/-- Claim C6 (confirmed): in legacy (ADTS) output mode, for encodable
parameters and `frame_size = payload_length + 7 < 0x4000` the synthesized
header is byte-for-byte the claimed 7-byte sequence, and any payload with
`frame_size ≥ 0x4000` is rejected as too large. -/
theorem c6_adts_header_bytes (profile : Nat) (channels sample_rate : Int) (len : Nat)
    (hprof : profile ≤ 3)
    (hcc : get_audio_channel_configuration channels ≠ 255)
    (hsfi : get_audio_sampling_frequency_index sample_rate ≠ 255) :
    (len + 7 < 0x4000 →
      prepend_adts_headers profile channels sample_rate len = .ok [
        0xFF,
        0xF0 ||| (0 <<< 3) ||| 0x1,
        (profile <<< 6) ||| (get_audio_sampling_frequency_index sample_rate <<< 2) |||
          0x2 ||| (get_audio_channel_configuration channels &&& 0x4),
        ((get_audio_channel_configuration channels &&& 0x3) <<< 6) ||| 0x30 |||
          ((len + 7) >>> 11),
        ((len + 7) >>> 3) &&& 0xFF,
        (((len + 7) &&& 0x7) <<< 5) ||| 0x1F,
        0xFC]) ∧
    (0x4000 ≤ len + 7 →
      prepend_adts_headers profile channels sample_rate len = .error .frameTooLarge) := by
  have hccle := get_cc_le channels hcc
  have hsfile := get_sfi_le sample_rate hsfi
  constructor
  · intro hlt
    simp only [prepend_adts_headers, ADTS_HEADER_LENGTH]
    rw [if_neg (by omega), if_neg hcc, if_neg hsfi, if_neg (by omega)]
    have hb2 : (profile <<< 6) ||| (get_audio_sampling_frequency_index sample_rate <<< 2) |||
        0x2 ||| (get_audio_channel_configuration channels &&& 0x4) < 2 ^ 8 := by
      refine Nat.or_lt_two_pow (Nat.or_lt_two_pow (Nat.or_lt_two_pow ?_ ?_) ?_) ?_
      · rw [Nat.shiftLeft_eq]; omega
      · rw [Nat.shiftLeft_eq]; omega
      · norm_num
      · exact lt_of_le_of_lt Nat.and_le_right (by norm_num)
    have hb3 : ((get_audio_channel_configuration channels &&& 0x3) <<< 6) ||| 0x30 |||
        ((len + 7) >>> 11) < 2 ^ 8 := by
      refine Nat.or_lt_two_pow (Nat.or_lt_two_pow ?_ ?_) ?_
      · rw [Nat.shiftLeft_eq]
        have : get_audio_channel_configuration channels &&& 3 ≤ 3 := Nat.and_le_right
        omega
      · norm_num
      · rw [Nat.shiftRight_eq_div_pow]; omega
    have hm : (len + 7) &&& 7 ≤ 7 := Nat.and_le_right
    have e5 : (((len + 7) &&& 7) <<< 5 + 0x1F) % 256 =
        ((len + 7) &&& 7) <<< 5 ||| 0x1F := by
      generalize (len + 7) &&& 7 = m at hm
      interval_cases m <;> decide
    norm_num at hb2 hb3
    rw [Nat.mod_eq_of_lt hb2, Nat.mod_eq_of_lt hb3, e5]
  · intro hge
    simp only [prepend_adts_headers, ADTS_HEADER_LENGTH]
    rw [if_neg (by omega), if_neg hcc, if_neg hsfi, if_pos (by omega)]

/-- Witness for C6 with the specification's example parameters: profile lc,
48 kHz, stereo, payload length 100. -/
theorem c6_adts_header_witness :
    prepend_adts_headers 1 2 48000 100 =
      .ok [0xFF, 0xF1, 0x4E, 0xB0, 0x0D, 0x7F, 0xFC] ∧
    prepend_adts_headers 1 2 48000 16377 = .error .frameTooLarge := by
  constructor
  · have h := (c6_adts_header_bytes 1 2 48000 100 (by norm_num) (by decide) (by decide)).1
      (by norm_num)
    rw [h]
    simp only [Except.ok.injEq, List.cons.injEq, and_true]
    decide
  · exact (c6_adts_header_bytes 1 2 48000 16377 (by norm_num) (by decide) (by decide)).2
      (by norm_num)

/-- Claim C8 (counterexample): on a firecode-valid superframe whose first AU
is well-formed but whose second AU's wrapped size exceeds the ADTS limit,
`handle_frame` returns the fatal `GST_FLOW_ERROR` — but the first AU has
already been emitted downstream, so partial output of the failing superframe
is forwarded. -/
theorem c8_partial_output_counterexample :
    (handle_frame sync_state c8_bytes 120 false (some .adts) 1).ret = .error ∧
    (handle_frame sync_state c8_bytes 120 false (some .adts) 1).emitted =
      [{ start := 5, size := 102, adts := some [0xFF, 0xF1, 0x62, 0x70, 0x0D, 0xBF, 0xFC] }] :=
  ⟨rfl, rfl⟩

/-- Claim C8 (amended): when the AU emission loop fails, the session stops
with a fatal error, but every AU before the failing one has already been
forwarded: the emitted list is exactly the image of the AUs preceding the
first AU whose ADTS header synthesis fails. -/
theorem c8_emit_error_amended (profile : Nat) (channels sample_rate : Int)
    (aus : List AU) (outs : List OutFrame)
    (h : emit_aus profile channels sample_rate .adts aus = (outs, .error)) :
    outs.length < aus.length ∧
    outs = (aus.take outs.length).map (fun a =>
      { start := a.start, size := a.size,
        adts := (prepend_adts_headers profile channels sample_rate a.size).toOption }) ∧
    (∃ e, prepend_adts_headers profile channels sample_rate
          ((aus.getD outs.length default).size) = .error e) := by
  induction aus generalizing outs with
  | nil => simp [emit_aus] at h
  | cons a rest ih =>
    rw [emit_aus, if_pos rfl] at h
    cases hp : prepend_adts_headers profile channels sample_rate a.size with
    | error e =>
      rw [hp] at h
      rw [Prod.mk.injEq] at h
      obtain ⟨h1, h2⟩ := h
      subst h1
      exact ⟨by simp, by simp, ⟨e, by simpa using hp⟩⟩
    | ok hh =>
      rw [hp] at h
      simp only [Prod.mk.injEq] at h
      obtain ⟨h1, h2⟩ := h
      subst h1
      have hrest : emit_aus profile channels sample_rate .adts rest =
          ((emit_aus profile channels sample_rate .adts rest).1, .error) := by
        rw [← h2]
      have ihh := ih _ hrest
      refine ⟨by simpa using ihh.1, ?_, ?_⟩
      · simp only [List.length_cons, List.take_succ_cons, List.map_cons]
        rw [hp, List.cons.injEq]
        exact ⟨rfl, ihh.2.1⟩
      · simpa using ihh.2.2

/-- Witness for the amended C8: a two-AU list whose first AU is encodable and
whose second is oversized; emission returns the first output frame and the
fatal error. -/
theorem c8_emit_error_witness :
    emit_aus 1 1 16000 .adts [{ start := 5, size := 102 }, { start := 109, size := 4294967295 }] =
      ([{ start := 5, size := 102, adts := some [0xFF, 0xF1, 0x62, 0x70, 0x0D, 0xBF, 0xFC] }],
        .error) ∧
    (1 < 2 ∧
      [({ start := 5, size := 102,
          adts := some [0xFF, 0xF1, 0x62, 0x70, 0x0D, 0xBF, 0xFC] } : OutFrame)] =
        ([{ start := 5, size := 102 }, { start := 109, size := 4294967295 }].take 1).map
          (fun a : AU =>
            { start := a.start, size := a.size,
              adts := (prepend_adts_headers 1 1 16000 a.size).toOption }) ∧
      (∃ e, prepend_adts_headers 1 1 16000
        (([{ start := 5, size := 102 },
           { start := 109, size := 4294967295 }] : List AU).getD 1 default).size = .error e)) :=
  ⟨rfl, c8_emit_error_amended 1 1 16000
    [{ start := 5, size := 102 }, { start := 109, size := 4294967295 }]
    [{ start := 5, size := 102, adts := some [0xFF, 0xF1, 0x62, 0x70, 0x0D, 0xBF, 0xFC] }]
    (by rfl)⟩

end DabPlus
